import Mathlib

/-!
Verification development for the LessDumbEveryDay content-acquisition pipeline
(`sources.py`).  The Python module is shallowly embedded: HTTP traffic is a
`World` mapping URLs to responses, Python exceptions become an `Except PyErr`
layer whose catch-all handlers are modelled explicitly, Python dictionaries
with optional keys become structures with `Option String` fields, and
`random.choice` is modelled by an externally supplied natural number used as
an index (every index is reachable, matching a uniform draw).
-/

namespace LDE

/-- Python exception kinds that can arise in `sources.py`. -/
inductive PyErr where
  | requestError
  | httpError
  | valueError
  | keyError
  | indexError
  deriving DecidableEq, Repr

/-- One feed entry as produced by `feedparser`: `entry.get("title")` and
`entry.get("link")` may be absent, hence `Option`. -/
structure Entry where
  title : Option String
  link : Option String
  deriving DecidableEq, Repr

/-- A parsed feed (`feedparser.parse(...)`), reduced to its entry list. -/
structure Feed where
  entries : List Entry
  deriving DecidableEq, Repr

/-- A Python dict record `{title, link, content?}` as built by the adapters;
each key may be absent (`none`) or present with a string value. -/
structure ContentRecord where
  title : Option String
  link : Option String
  content : Option String
  deriving DecidableEq, Repr

/-- Python truthiness test for `dict.get(key)`: falsy when the key is absent
(`None`) or the value is the empty string. -/
def pyFalsy : Option String → Bool
  | none => true
  | some s => s.isEmpty

/-- Python `sep.join(xs)`. -/
def pyJoin (sep : String) : List String → String
  | [] => ""
  | [x] => x
  | x :: y :: xs => x ++ sep ++ pyJoin sep (y :: xs)

/-- `random.choice(es)` with the random draw supplied as `r`: picks the
element at index `r % es.length`; raises `IndexError` on an empty sequence. -/
def pyChoice {α : Type} (es : List α) (r : Nat) : Except PyErr α :=
  match es[r % es.length]? with
  | some e => Except.ok e
  | none => Except.error PyErr.indexError

/-- The element `random.choice` would pick from `es` given draw `r`. -/
def pickEntry {α : Type} (es : List α) (r : Nat) : Option α :=
  es[r % es.length]?

/-- Whitespace test matching the default character set of Python
`str.strip` (space, newline, tab, carriage return). -/
def isWS (c : Char) : Bool :=
  c = ' ' || c = '\n' || c = '\t' || c = '\r'

/-- Trims surrounding whitespace from a character list. -/
def trimChars (l : List Char) : List Char :=
  ((l.dropWhile isWS).reverse.dropWhile isWS).reverse

/-- Python `s.strip()`. -/
def pyStrip (s : String) : String :=
  String.mk (trimChars s.data)

/-- `response.raise_for_status()` raises exactly for 4xx and 5xx codes. -/
def raisesForStatus (st : Nat) : Bool :=
  decide (400 ≤ st) && decide (st < 600)

/-- `TARGET_CATEGORIES` from `sources.py`. -/
def TARGET_CATEGORIES : List String :=
  ["Aracnologia", "Arqueologia", "Astronomia", "Biologia",
   "Ciências naturais", "Cosmologia", "Cristianismo", "Ética", "Evolução",
   "Filosofia medieval", "Filosofia", "Física", "História Antiga",
   "História da ciência", "História da Igreja", "História da religião",
   "Mitologia", "Neurociência", "Paleontologia", "Reforma Protestante",
   "Sobrevivência", "Tecnologia", "Tolkien"]

/-- Outcome of `requests.get` on a feed URL: a network/timeout error (raises
`requests.RequestException`), or a response with a status code and the entry
list that `feedparser.parse(response.content)` yields. -/
inductive FetchResult where
  | netError
  | response (status : Nat) (entries : List Entry)
  deriving DecidableEq, Repr

/-- Outcome of the Wikipedia category-members API call: a raised request
error, or a response with a status and the `categorymembers` list, each
member carrying its `"title"` value when present. -/
inductive CatResult where
  | err
  | ok (status : Nat) (members : List (Option String))
  deriving DecidableEq, Repr

/-- Outcome of the Wikipedia page-summary API call: a raised request error,
or a response with status, optional `"title"` field, and the optional
`content_urls.desktop.page` field. -/
inductive SummaryResult where
  | err
  | ok (status : Nat) (dataTitle : Option String) (desktopPage : Option String)
  deriving DecidableEq, Repr

/-- Outcome of the Stanford Encyclopedia random-entry request: a raised
request error, or a response with status, the text of the first `h1` element
when present, and the final URL after redirects (`response.url`). -/
inductive PlatoResult where
  | err
  | ok (status : Nat) (h1Text : Option String) (finalUrl : String)
  deriving DecidableEq, Repr

/-- The external HTTP world one run of the module observes. -/
structure World where
  feed : String → FetchResult
  wikiCat : String → CatResult
  wikiSummary : String → SummaryResult
  plato : PlatoResult

/-- The random draws consumed during one run. -/
structure Rand where
  catChoice : Nat
  entryChoice : Nat
  stoicChoice : Nat

/-- Body of the `try` block of `fetch_feed`: `requests.get` (may raise),
`raise_for_status` (may raise), then `return feed if feed.entries else None`. -/
def fetch_feed_attempt (w : World) (url : String) : Except PyErr (Option Feed) :=
  match w.feed url with
  | FetchResult.netError => Except.error PyErr.requestError
  | FetchResult.response st es =>
    if raisesForStatus st then Except.error PyErr.httpError
    else Except.ok (if es.isEmpty then none else some ⟨es⟩)

/-- `fetch_feed` from `sources.py`: the catch-all `except` logs and returns
`None`, so every raised error becomes `none`. -/
def fetch_feed (w : World) (url : String) : Option Feed :=
  match fetch_feed_attempt w url with
  | Except.ok r => r
  | Except.error _ => none

/-- Literal text of the fallback note before the joined source names. -/
def fallbackNoteHead : String :=
  "\n        **Fontes tentadas:** "

/-- Literal text of the fallback note after the joined source names (the
manual-research instructions). -/
def fallbackNoteInstructions : String :=
  "\n\n        ## Instruções:\n        1. Acesse manualmente: [Wikipedia](https://wikipedia.org)\n        2. Escolha um conceito relevante\n        3. Adicione seus insights abaixo\n        "

/-- `generate_fallback_note` from `sources.py`. -/
def generate_fallback_note (failed_sources : List String) : ContentRecord :=
  { title := some "Falha na Geração Automática"
    link := some ""
    content := some (fallbackNoteHead ++ pyJoin ", " failed_sources
      ++ fallbackNoteInstructions) }

/-- `fetch_article_from_feed` from `sources.py`: fetch the feed, return the
fallback note when it is `None`, otherwise pick a random entry and build the
title/link record.  The result is wrapped in `Except` because `random.choice`
could in principle raise `IndexError`. -/
def fetch_article_from_feed (w : World) (feed_url source_name : String)
    (r : Nat) : Except PyErr ContentRecord :=
  match fetch_feed w feed_url with
  | none => Except.ok (generate_fallback_note [source_name])
  | some feed =>
    match pyChoice feed.entries r with
    | Except.error e => Except.error e
    | Except.ok entry =>
      Except.ok
        { title := some (entry.title.getD ("Artigo " ++ source_name))
          link := some (entry.link.getD "")
          content := none }

/-- `get_jstor` from `sources.py`. -/
def get_jstor (w : World) (r : Rand) : Except PyErr ContentRecord :=
  fetch_article_from_feed w "https://daily.jstor.org/feed/" "JSTOR"
    r.entryChoice

/-- `get_daily_stoic` from `sources.py`. -/
def get_daily_stoic (w : World) (r : Rand) : Except PyErr ContentRecord :=
  fetch_article_from_feed w "https://dailystoic.com/feed/" "Daily Stoic"
    r.stoicChoice

/-- Body of the `try` block of `get_wikipedia`: pick a category, query the
category-members listing (raises on request error or 4xx/5xx), return the
fallback note when there are zero members, otherwise pick a member, read its
`"title"` (raises `KeyError` when absent), query the page summary (raises on
request error or 4xx/5xx), and read `data["content_urls"]["desktop"]["page"]`
(raises `KeyError` when absent). -/
def get_wikipedia_attempt (w : World) (r : Rand) : Except PyErr ContentRecord :=
  match pyChoice TARGET_CATEGORIES r.catChoice with
  | Except.error e => Except.error e
  | Except.ok category =>
    match w.wikiCat category with
    | CatResult.err => Except.error PyErr.requestError
    | CatResult.ok st members =>
      if raisesForStatus st then Except.error PyErr.httpError
      else if members.isEmpty then
        Except.ok (generate_fallback_note ["Wikipedia"])
      else
        match pyChoice members r.entryChoice with
        | Except.error e => Except.error e
        | Except.ok page =>
          match page with
          | none => Except.error PyErr.keyError
          | some pageTitle =>
            match w.wikiSummary pageTitle with
            | SummaryResult.err => Except.error PyErr.requestError
            | SummaryResult.ok st2 dataTitle desktopPage =>
              if raisesForStatus st2 then Except.error PyErr.httpError
              else
                match desktopPage with
                | none => Except.error PyErr.keyError
                | some p =>
                  Except.ok
                    { title := some (dataTitle.getD "Artigo Desconhecido")
                      link := some p
                      content := none }

/-- `get_wikipedia` from `sources.py`: the catch-all `except` converts every
raised error into the fallback note for `"Wikipedia"`. -/
def get_wikipedia (w : World) (r : Rand) : ContentRecord :=
  match get_wikipedia_attempt w r with
  | Except.ok rec => rec
  | Except.error _ => generate_fallback_note ["Wikipedia"]

/-- Body of the `try` block of `get_plato`: request the random-entry page
(raises on request error or 4xx/5xx), require an `h1` element (raises
`ValueError` when absent), and use the stripped `h1` text as title and the
final redirected URL as link. -/
def get_plato_attempt (w : World) : Except PyErr ContentRecord :=
  match w.plato with
  | PlatoResult.err => Except.error PyErr.requestError
  | PlatoResult.ok st h1Text finalUrl =>
    if raisesForStatus st then Except.error PyErr.httpError
    else
      match h1Text with
      | none => Except.error PyErr.valueError
      | some t =>
        Except.ok
          { title := some (pyStrip t), link := some finalUrl, content := none }

/-- `get_plato` from `sources.py`: the catch-all `except` converts every
raised error into the fallback note for `"Stanford Philosophy"`. -/
def get_plato (w : World) : ContentRecord :=
  match get_plato_attempt w with
  | Except.ok rec => rec
  | Except.error _ => generate_fallback_note ["Stanford Philosophy"]

/-- The dynamic dispatch `globals()[f"get_\x7bsource\x7d"]`: the module
defines exactly `get_wikipedia`, `get_jstor`, `get_plato` and
`get_daily_stoic` as adapters; any other name yields `none` (a `KeyError`
inside the `try` of `get_content`). -/
def adapterCall (w : World) (r : Rand) (source : String) :
    Option (Except PyErr ContentRecord) :=
  if source = "wikipedia" then some (Except.ok (get_wikipedia w r))
  else if source = "jstor" then some (get_jstor w r)
  else if source = "plato" then some (Except.ok (get_plato w))
  else if source = "daily_stoic" then some (get_daily_stoic w r)
  else none

/-- The `main` dict of the aggregate: both keys are always present strings
after the `content.get(...)` defaulting. -/
structure MainRecord where
  title : String
  link : String
  deriving DecidableEq, Repr

/-- The aggregate dict returned by `get_content` on success. -/
structure AggregateResult where
  main : MainRecord
  daily_stoic : ContentRecord
  deriving DecidableEq, Repr

/-- `get_content` from `sources.py`, instrumented with the list of adapter
functions actually invoked: the single dynamic dispatch is attempted; a
`KeyError` from the lookup, a raised adapter error, a record with falsy
`link` or `title` (the `ValueError`), or a raised `get_daily_stoic` all land
in the catch-all `except`, which logs and returns `None`. -/
def get_contentT (w : World) (r : Rand) (source : String) :
    Option AggregateResult × List String :=
  match adapterCall w r source with
  | none => (none, [])
  | some (Except.error _) => (none, [source])
  | some (Except.ok content) =>
    if pyFalsy content.link || pyFalsy content.title then (none, [source])
    else
      match get_daily_stoic w r with
      | Except.error _ => (none, [source])
      | Except.ok ds =>
        (some
          { main :=
              { title := content.title.getD "Título não disponível"
                link := content.link.getD "" }
            daily_stoic := ds }, [source])

/-- `get_content` from `sources.py` (the instrumented version with the
attempt list projected away). -/
def get_content (w : World) (r : Rand) (source : String) :
    Option AggregateResult :=
  (get_contentT w r source).1

/-- Modelled from the spec: helper of the Content Extractor, which is
described in the spec but absent from the source tree.  Walks the character
list with an inside-a-tag flag, dropping tag text and replacing each tag by a
newline separator (the spec joins block-level text with newlines). -/
def stripTagsAux : Bool → List Char → List Char
  | _, [] => []
  | false, c :: cs =>
    if c = '<' then '\n' :: stripTagsAux true cs
    else c :: stripTagsAux false cs
  | true, c :: cs =>
    if c = '>' then stripTagsAux false cs
    else stripTagsAux true cs

/-- Modelled from the spec: collapses runs of newline separators left by
adjacent tags into a single newline, tracking whether the previous kept
character was a newline. -/
def collapseNLAux : Bool → List Char → List Char
  | _, [] => []
  | prevNL, c :: cs =>
    if c = '\n' then
      if prevNL then collapseNLAux true cs
      else '\n' :: collapseNLAux true cs
    else c :: collapseNLAux false cs

/-- Modelled from the spec: collapses runs of newline separators left by
adjacent tags into a single newline. -/
def collapseNL (l : List Char) : List Char :=
  collapseNLAux false l

/-- Modelled from the spec: the markup-stripping step of the Content
Extractor — strips HTML markup, joins block-level text with newline
separators, and trims surrounding whitespace. -/
def stripHtml (html : String) : String :=
  String.mk (trimChars (collapseNL (stripTagsAux false html.data)))

/-- Modelled from the spec: `extract(entryDescriptionHtml, maxLength)`, the
Content Extractor, which the spec describes but the source tree does not
contain.  Strips markup, returns the literal "no content" sentinel when the
stripped text is empty, and otherwise truncates to `maxLength` characters. -/
def extract (html : String) (maxLength : Nat) : String :=
  let text := stripHtml html
  if text.isEmpty then "no content"
  else String.mk (text.data.take maxLength)

/-- A constant world: every URL gets the same answer. -/
def mkWorld (f : FetchResult) (c : CatResult) (s : SummaryResult)
    (p : PlatoResult) : World :=
  { feed := fun _ => f, wikiCat := fun _ => c, wikiSummary := fun _ => s
    plato := p }

/-- The all-zero random draws. -/
def r0 : Rand := ⟨0, 0, 0⟩

/-- A world in which every request fails. -/
def wErr : World :=
  mkWorld FetchResult.netError CatResult.err SummaryResult.err PlatoResult.err

/-- A world in which every feed answers 200 with one complete entry. -/
def wGood : World :=
  mkWorld (FetchResult.response 200 [{ title := some "T", link := some "L" }])
    CatResult.err SummaryResult.err PlatoResult.err

/-- A feed returned by `fetch_feed` always has at least one entry. -/
theorem fetch_feed_entries_nonempty (w : World) (url : String) (feed : Feed)
    (h : fetch_feed w url = some feed) : feed.entries.isEmpty = false := by
  unfold fetch_feed fetch_feed_attempt at h
  cases hw : w.feed url with
  | netError => rw [hw] at h; simp at h
  | response st es =>
    rw [hw] at h
    by_cases hs : raisesForStatus st = true
    · simp [hs] at h
    · by_cases he : es.isEmpty = true
      · simp [hs, he] at h
      · obtain ⟨entries⟩ := feed
        simp [hs, he] at h
        subst h
        simpa using he

/-- On a non-empty list, `random.choice` succeeds and returns the picked
element. -/
theorem pyChoice_ok {α : Type} (es : List α) (h : es.isEmpty = false)
    (r : Nat) : ∃ e, pickEntry es r = some e ∧ pyChoice es r = Except.ok e := by
  have hlen : 0 < es.length := by
    cases es with
    | nil => simp at h
    | cons x xs => simp
  have hlt : r % es.length < es.length := Nat.mod_lt _ hlen
  refine ⟨es[r % es.length], ?_, ?_⟩
  · unfold pickEntry
    exact List.getElem?_eq_getElem hlt
  · unfold pyChoice
    rw [List.getElem?_eq_getElem hlt]

/-- Every element of a list is picked by some random draw. -/
theorem pickEntry_surjective {α : Type} (es : List α) (e : α) (h : e ∈ es) :
    ∃ r, pickEntry es r = some e := by
  obtain ⟨i, hi, rfl⟩ := List.mem_iff_getElem.mp h
  refine ⟨i, ?_⟩
  simp [pickEntry, Nat.mod_eq_of_lt hi, List.getElem?_eq_getElem hi]

/-- `fetch_article_from_feed` on a successfully fetched feed returns the
record built from the chosen entry. -/
theorem fetch_article_eq_of_some (w : World) (url name : String) (r : Nat)
    (feed : Feed) (h : fetch_feed w url = some feed) (e : Entry)
    (hc : pyChoice feed.entries r = Except.ok e) :
    fetch_article_from_feed w url name r =
      Except.ok
        { title := some (e.title.getD ("Artigo " ++ name))
          link := some (e.link.getD "")
          content := none } := by
  unfold fetch_article_from_feed
  rw [h]
  simp [hc]

/-- C3: `fetch_feed` returns a failure value rather than raising in both
error cases — a response with an HTTP error status (404 in particular) makes
the `try` body raise and the handler return `None`, and a well-formed feed
with zero entries also yields `None`. -/
theorem c3_fetch_feed_failure_values (w : World) (url : String) (st : Nat)
    (es : List Entry) (h : w.feed url = FetchResult.response st es) :
    (400 ≤ st → st < 600 →
      fetch_feed_attempt w url = Except.error PyErr.httpError ∧
      fetch_feed w url = none) ∧
    (es = [] → fetch_feed w url = none) := by
  constructor
  · intro h4 h6
    have hs : raisesForStatus st = true := by
      simp [raisesForStatus, h4, h6]
    refine ⟨?_, ?_⟩
    · unfold fetch_feed_attempt; rw [h]; simp [hs]
    · unfold fetch_feed fetch_feed_attempt; rw [h]; simp [hs]
  · intro he
    subst he
    unfold fetch_feed fetch_feed_attempt
    rw [h]
    by_cases hs : raisesForStatus st <;> simp [hs]

/-- C3 witness: a 404 response and an empty 200 feed both map to `none`. -/
theorem c3_fetch_feed_failure_values_witness :
    fetch_feed (mkWorld (FetchResult.response 404 [⟨some "T", some "L"⟩])
      CatResult.err SummaryResult.err PlatoResult.err) "u" = none ∧
    fetch_feed (mkWorld (FetchResult.response 200 [])
      CatResult.err SummaryResult.err PlatoResult.err) "u" = none :=
  ⟨((c3_fetch_feed_failure_values _ "u" 404 [⟨some "T", some "L"⟩] rfl).1
      (by decide) (by decide)).2,
   (c3_fetch_feed_failure_values _ "u" 200 [] rfl).2 rfl⟩

/-- C4: on a successfully fetched feed (at least one entry) the feed-backed
adapter picks the entry indexed by the random draw — every entry is reachable
by some draw — and emits the record with `entry.title` (default
`"Artigo <source>"`) and `entry.link` (default `""`). -/
theorem c4_feed_adapter_selection (w : World) (feed_url source_name : String)
    (feed : Feed) (h : fetch_feed w feed_url = some feed) (r : Nat) :
    (∃ e, pickEntry feed.entries r = some e ∧
      fetch_article_from_feed w feed_url source_name r =
        Except.ok
          { title := some (e.title.getD ("Artigo " ++ source_name))
            link := some (e.link.getD "")
            content := none }) ∧
    (∀ e ∈ feed.entries, ∃ r2, pickEntry feed.entries r2 = some e) := by
  have hne := fetch_feed_entries_nonempty w feed_url feed h
  constructor
  · obtain ⟨e, hpick, hchoice⟩ := pyChoice_ok feed.entries hne r
    exact ⟨e, hpick,
      fetch_article_eq_of_some w feed_url source_name r feed h e hchoice⟩
  · intro e he
    exact pickEntry_surjective feed.entries e he

/-- C4 witness: a concrete two-entry feed with draw 1 picks the second
entry, whose title is absent, so the literal fallback title appears. -/
theorem c4_feed_adapter_selection_witness :
    fetch_article_from_feed
      (mkWorld (FetchResult.response 200
        [⟨some "A", some "LA"⟩, ⟨none, none⟩]) CatResult.err SummaryResult.err
        PlatoResult.err) "u" "JSTOR" 1 =
      Except.ok { title := some "Artigo JSTOR", link := some "", content := none } := by
  obtain ⟨⟨e, hpick, hres⟩, -⟩ :=
    c4_feed_adapter_selection
      (mkWorld (FetchResult.response 200
        [⟨some "A", some "LA"⟩, ⟨none, none⟩]) CatResult.err SummaryResult.err
        PlatoResult.err) "u" "JSTOR" ⟨[⟨some "A", some "LA"⟩, ⟨none, none⟩]⟩
      rfl 1
  have h2 : pickEntry ([⟨some "A", some "LA"⟩, ⟨none, none⟩] : List Entry) 1 =
      some ⟨none, none⟩ := rfl
  have he : e = (⟨none, none⟩ : Entry) :=
    Option.some_inj.mp (hpick.symm.trans h2)
  rw [he] at hres
  exact hres

/-- C10: for every world, feed URL, source name and random draw,
`fetch_article_from_feed` never raises (`random.choice` is only reached with
a non-empty entry list, since `fetch_feed` filters out empty feeds) and its
result always carries both the `title` and `link` keys. -/
theorem c10_fetch_article_total (w : World) (feed_url source_name : String)
    (r : Nat) :
    (∀ feed, fetch_feed w feed_url = some feed → feed.entries ≠ []) ∧
    (∃ rec, fetch_article_from_feed w feed_url source_name r =
        Except.ok rec ∧ rec.title.isSome = true ∧ rec.link.isSome = true) := by
  constructor
  · intro feed hfeed
    have := fetch_feed_entries_nonempty w feed_url feed hfeed
    simpa using this
  · cases hf : fetch_feed w feed_url with
    | none =>
      refine ⟨generate_fallback_note [source_name], ?_, rfl, rfl⟩
      unfold fetch_article_from_feed
      rw [hf]
    | some feed =>
      have hne := fetch_feed_entries_nonempty w feed_url feed hf
      obtain ⟨e, hpick, hchoice⟩ := pyChoice_ok feed.entries hne r
      exact ⟨_,
        fetch_article_eq_of_some w feed_url source_name r feed hf e hchoice,
        rfl, rfl⟩

/-- C10 witness: at a concrete feed world the adapter returns a record with
both keys present, and the fetched feed is non-empty. -/
theorem c10_fetch_article_total_witness :
    (⟨[{ title := some "T", link := some "L" }]⟩ : Feed).entries ≠ [] ∧
    (∃ rec, fetch_article_from_feed wGood "u" "JSTOR" 0 =
        Except.ok rec ∧ rec.title.isSome = true ∧ rec.link.isSome = true) :=
  ⟨(c10_fetch_article_total wGood "u" "JSTOR" 0).1
      ⟨[{ title := some "T", link := some "L" }]⟩ rfl,
   (c10_fetch_article_total wGood "u" "JSTOR" 0).2⟩

/-- C5: the wikipedia adapter never propagates a raised error — whenever the
`try` body of `get_wikipedia` raises (HTTP error or missing field at any
step), the result is the fallback placeholder, and a category listing that
succeeds with zero members also yields the fallback placeholder. -/
theorem c5_wikipedia_never_raises (w : World) (r : Rand) :
    (∀ e, get_wikipedia_attempt w r = Except.error e →
      get_wikipedia w r = generate_fallback_note ["Wikipedia"]) ∧
    (∀ cat st, pickEntry TARGET_CATEGORIES r.catChoice = some cat →
      w.wikiCat cat = CatResult.ok st [] → raisesForStatus st = false →
      get_wikipedia w r = generate_fallback_note ["Wikipedia"]) := by
  constructor
  · intro e he
    unfold get_wikipedia
    rw [he]
  · intro cat st hpick hcat hst
    have hchoice : pyChoice TARGET_CATEGORIES r.catChoice = Except.ok cat := by
      unfold pyChoice
      unfold pickEntry at hpick
      rw [hpick]
    unfold get_wikipedia get_wikipedia_attempt
    rw [hchoice]
    simp [hcat, hst]

/-- C5 witness: a failing category request and an empty 200 category listing
both produce the fallback placeholder. -/
theorem c5_wikipedia_never_raises_witness :
    get_wikipedia wErr r0 = generate_fallback_note ["Wikipedia"] ∧
    get_wikipedia (mkWorld FetchResult.netError (CatResult.ok 200 [])
      SummaryResult.err PlatoResult.err) r0 =
      generate_fallback_note ["Wikipedia"] :=
  ⟨(c5_wikipedia_never_raises wErr r0).1 PyErr.requestError rfl,
   (c5_wikipedia_never_raises (mkWorld FetchResult.netError
      (CatResult.ok 200 []) SummaryResult.err PlatoResult.err) r0).2
      "Aracnologia" 200 rfl rfl rfl⟩

/-- C6: the plato adapter requires an `h1` heading — its absence raises the
`ValueError`, caught and converted to the fallback placeholder — and on
success the record link is the final redirected URL of the response. -/
theorem c6_plato_title_heading (w : World) (st : Nat) (h1Text : Option String)
    (finalUrl : String) (h : w.plato = PlatoResult.ok st h1Text finalUrl)
    (hst : raisesForStatus st = false) :
    (h1Text = none →
      get_plato_attempt w = Except.error PyErr.valueError ∧
      get_plato w = generate_fallback_note ["Stanford Philosophy"]) ∧
    (∀ t, h1Text = some t →
      get_plato w =
        { title := some (pyStrip t), link := some finalUrl
          content := none }) := by
  constructor
  · intro hn
    subst hn
    have ha : get_plato_attempt w = Except.error PyErr.valueError := by
      unfold get_plato_attempt
      rw [h]
      simp [hst]
    refine ⟨ha, ?_⟩
    unfold get_plato
    rw [ha]
  · intro t ht
    subst ht
    have ha : get_plato_attempt w =
        Except.ok { title := some (pyStrip t), link := some finalUrl
                    content := none } := by
      unfold get_plato_attempt
      rw [h]
      simp [hst]
    unfold get_plato
    rw [ha]

/-- C6 witness: a 200 page with no `h1` yields the fallback placeholder; a
200 page with `h1` text yields the stripped title and the final URL. -/
theorem c6_plato_title_heading_witness :
    get_plato (mkWorld FetchResult.netError CatResult.err SummaryResult.err
      (PlatoResult.ok 200 none "https://plato.stanford.edu/entries/x/")) =
      generate_fallback_note ["Stanford Philosophy"] ∧
    get_plato (mkWorld FetchResult.netError CatResult.err SummaryResult.err
      (PlatoResult.ok 200 (some " Frege ")
        "https://plato.stanford.edu/entries/frege/")) =
      { title := some "Frege"
        link := some "https://plato.stanford.edu/entries/frege/"
        content := none } := by
  constructor
  · exact ((c6_plato_title_heading
      (mkWorld FetchResult.netError CatResult.err SummaryResult.err
        (PlatoResult.ok 200 none "https://plato.stanford.edu/entries/x/"))
      200 none "https://plato.stanford.edu/entries/x/" rfl rfl).1 rfl).2
  · have h2 := (c6_plato_title_heading
      (mkWorld FetchResult.netError CatResult.err SummaryResult.err
        (PlatoResult.ok 200 (some " Frege ")
          "https://plato.stanford.edu/entries/frege/"))
      200 (some " Frege ") "https://plato.stanford.edu/entries/frege/"
      rfl rfl).2 " Frege " rfl
    rw [h2]
    decide

/-- Every member of the joined list occurs inside the join. -/
theorem pyJoin_mem_split (sep : String) (fs : List String) (s : String)
    (h : s ∈ fs) : ∃ a b, pyJoin sep fs = a ++ s ++ b := by
  induction fs with
  | nil => simp at h
  | cons x xs ih =>
    rcases List.mem_cons.mp h with rfl | hx
    · cases xs with
      | nil =>
        exact ⟨"", "", by
          simp [pyJoin, String.append_empty, String.empty_append]⟩
      | cons y ys =>
        refine ⟨"", sep ++ pyJoin sep (y :: ys), ?_⟩
        simp [pyJoin, String.empty_append, String.append_assoc]
    · cases xs with
      | nil => simp at hx
      | cons y ys =>
        obtain ⟨a, b, hab⟩ := ih hx
        refine ⟨x ++ sep ++ a, b, ?_⟩
        rw [show pyJoin sep (x :: y :: ys) =
          x ++ sep ++ pyJoin sep (y :: ys) from rfl, hab]
        simp [String.append_assoc]

/-- C7: the fallback note body is exactly the header, the comma-joined list
of the attempted source names, and the manual-research instructions; every
attempted name occurs in it, as does the instructions heading. -/
theorem c7_fallback_note_lists_sources (fs : List String) (s : String)
    (hs : s ∈ fs) :
    (generate_fallback_note fs).content =
      some (fallbackNoteHead ++ pyJoin ", " fs ++ fallbackNoteInstructions) ∧
    (∃ a b, fallbackNoteHead ++ pyJoin ", " fs ++ fallbackNoteInstructions =
      a ++ s ++ b) ∧
    (∃ a b, fallbackNoteInstructions = a ++ "## Instruções:" ++ b) := by
  refine ⟨rfl, ?_, ?_⟩
  · obtain ⟨a, b, hab⟩ := pyJoin_mem_split ", " fs s hs
    refine ⟨fallbackNoteHead ++ a, b ++ fallbackNoteInstructions, ?_⟩
    rw [hab]
    simp [String.append_assoc]
  · exact ⟨"\n\n        ",
      "\n        1. Acesse manualmente: [Wikipedia](https://wikipedia.org)\n        2. Escolha um conceito relevante\n        3. Adicione seus insights abaixo\n        ",
      rfl⟩

/-- C7 witness: the note for the attempted sources JSTOR and Science lists
them both, and JSTOR occurs in the body. -/
theorem c7_fallback_note_lists_sources_witness :
    (generate_fallback_note ["JSTOR", "Science"]).content =
      some (fallbackNoteHead ++ pyJoin ", " ["JSTOR", "Science"]
        ++ fallbackNoteInstructions) ∧
    (∃ a b, fallbackNoteHead ++ pyJoin ", " ["JSTOR", "Science"]
        ++ fallbackNoteInstructions = a ++ "JSTOR" ++ b) ∧
    (∃ a b, fallbackNoteInstructions = a ++ "## Instruções:" ++ b) :=
  c7_fallback_note_lists_sources ["JSTOR", "Science"] "JSTOR" (by simp)

/-- C8 counterexample: at `html = ""` and `maxLength = 0` the extractor
returns the ten-character sentinel, so its output length exceeds
`maxLength` — the universal length bound of the claim fails. -/
theorem c8_extract_length_counterexample :
    extract "" 0 = "no content" ∧ ¬((extract "" 0).length ≤ 0) := by
  constructor
  · rfl
  · decide

/-- C8 (amended): the extractor output length is bounded by
`max maxLength (length of the sentinel)` — at most `maxLength` except when
the sentinel is returned for empty stripped text; `extract "" N` is the
sentinel; and block-level text is joined by newlines and trimmed, as in
`extract "<p>A</p><p>B</p>" 100 = "A\nB"`. -/
theorem c8_extract_bounds (html : String) (N : Nat) :
    (extract html N).length ≤ max N ("no content").length ∧
    extract "" N = "no content" ∧
    extract "<p>A</p><p>B</p>" 100 = "A\nB" := by
  refine ⟨?_, rfl, by decide⟩
  show (if (stripHtml html).isEmpty then "no content"
    else String.mk ((stripHtml html).data.take N)).length ≤
      max N ("no content").length
  by_cases he : (stripHtml html).isEmpty = true
  · rw [if_pos he]
    exact le_max_right _ _
  · rw [if_neg he]
    refine le_trans ?_ (le_max_left _ _)
    show ((stripHtml html).data.take N).length ≤ N
    rw [List.length_take]
    exact min_le_left _ _

/-- A non-falsy optional string is a present, non-empty string. -/
theorem pyFalsy_false (o : Option String) (h : pyFalsy o = false) :
    ∃ s, o = some s ∧ s ≠ "" := by
  cases o with
  | none => simp [pyFalsy] at h
  | some s =>
    refine ⟨s, rfl, ?_⟩
    intro heq
    subst heq
    exact absurd h (by decide)

/-- `get_contentT` after a successful adapter call: validation, then the
daily-stoic call, then the aggregate. -/
theorem get_contentT_ok (w : World) (r : Rand) (source : String)
    (c : ContentRecord) (ha : adapterCall w r source = some (Except.ok c)) :
    get_contentT w r source =
      if (pyFalsy c.link || pyFalsy c.title) = true then (none, [source])
      else
        match get_daily_stoic w r with
        | Except.error _ => (none, [source])
        | Except.ok ds =>
          (some
            { main :=
                { title := c.title.getD "Título não disponível"
                  link := c.link.getD "" }
              daily_stoic := ds }, [source]) := by
  unfold get_contentT
  rw [ha]

/-- C9: `get_content` returns `None` — not a raised error and not a
placeholder aggregate — when the `get_<source>` lookup finds no adapter
(`KeyError`) and when the dispatched adapter yields a record whose `link` or
`title` is empty or missing (the `ValueError` path). -/
theorem c9_get_content_failure_none (w : World) (r : Rand) (source : String) :
    (adapterCall w r source = none → get_content w r source = none) ∧
    (∀ c, adapterCall w r source = some (Except.ok c) →
      (pyFalsy c.link || pyFalsy c.title) = true →
      get_content w r source = none) := by
  constructor
  · intro h
    unfold get_content get_contentT
    rw [h]
  · intro c hc hf
    unfold get_content get_contentT
    rw [hc]
    simp [hf]

/-- C9 witness: the missing `get_science` adapter and a jstor run whose
record has an empty link both make `get_content` return `None`. -/
theorem c9_get_content_failure_none_witness :
    get_content wErr r0 "science" = none ∧
    get_content wErr r0 "jstor" = none :=
  ⟨(c9_get_content_failure_none wErr r0 "science").1 rfl,
   (c9_get_content_failure_none wErr r0 "jstor").2
     (generate_fallback_note ["JSTOR"]) rfl rfl⟩

/-- The weekday provider list of `main.py`; `"science"` is a supported
provider name with no `get_science` adapter in `sources.py`. -/
def fonts : List String :=
  ["wikipedia", "science", "jstor", "nautilus", "pesquisa_fapesp"]

/-- C1 counterexample: `"science"` is a supported provider name, yet
`get_content` returns `None` for it — no aggregate with non-empty
`main.title`/`main.link` is produced. -/
theorem c1_science_counterexample :
    "science" ∈ fonts ∧ get_content wErr r0 "science" = none :=
  ⟨by simp [fonts], rfl⟩

/-- C1 (amended): whenever `get_content` does return an aggregate its
`main.title` and `main.link` are non-empty strings, but for provider names
without a `get_<source>` function (such as `"science"`) it returns `None`
instead of an aggregate. -/
theorem c1_aggregate_fields_nonempty :
    (∀ (w : World) (r : Rand) (source : String) (agg : AggregateResult),
      get_content w r source = some agg →
      agg.main.title ≠ "" ∧ agg.main.link ≠ "") ∧
    (∀ (w : World) (r : Rand), get_content w r "science" = none) := by
  constructor
  · intro w r source agg h
    rw [show get_content w r source = (get_contentT w r source).1 from rfl]
      at h
    cases ha : adapterCall w r source with
    | none =>
      rw [show get_contentT w r source = (none, []) from by
        unfold get_contentT; rw [ha]] at h
      simp at h
    | some res =>
      cases res with
      | error e =>
        rw [show get_contentT w r source = (none, [source]) from by
          unfold get_contentT; rw [ha]] at h
        simp at h
      | ok c =>
        rw [get_contentT_ok w r source c ha] at h
        cases hcond : (pyFalsy c.link || pyFalsy c.title) with
        | true => rw [hcond] at h; simp at h
        | false =>
          rw [hcond] at h
          obtain ⟨hl, ht⟩ := Bool.or_eq_false_iff.mp hcond
          cases hd : get_daily_stoic w r with
          | error e => rw [hd] at h; simp at h
          | ok ds =>
            rw [hd] at h
            have hagg :
                ({ main := { title := c.title.getD "Título não disponível"
                             link := c.link.getD "" }
                   daily_stoic := ds } : AggregateResult) = agg :=
              Option.some.inj h
            obtain ⟨t, htc, htne⟩ := pyFalsy_false c.title ht
            obtain ⟨l, hlc, hlne⟩ := pyFalsy_false c.link hl
            rw [← hagg]
            constructor
            · simpa [htc] using htne
            · simpa [hlc] using hlne
  · intro w r
    rfl

/-- C1 witness: a working jstor feed produces an aggregate whose main title
and link are the non-empty feed values. -/
theorem c1_aggregate_fields_nonempty_witness :
    ({ main := { title := "T", link := "L" }
       daily_stoic := { title := some "T", link := some "L", content := none } }
        : AggregateResult).main.title ≠ "" ∧
    ({ main := { title := "T", link := "L" }
       daily_stoic := { title := some "T", link := some "L", content := none } }
        : AggregateResult).main.link ≠ "" :=
  c1_aggregate_fields_nonempty.1 wGood r0 "jstor"
    { main := { title := "T", link := "L" }
      daily_stoic := { title := some "T", link := some "L", content := none } }
    rfl

/-- A world where every feed request fails but the Wikipedia API works. -/
def wJstorDown : World :=
  { feed := fun _ => FetchResult.netError
    wikiCat := fun _ => CatResult.ok 200 [some "Evolução"]
    wikiSummary := fun _ =>
      SummaryResult.ok 200 (some "Evolução")
        (some "https://pt.wikipedia.org/wiki/Evolução")
    plato := PlatoResult.err }

/-- C2 counterexample: with the jstor feed down and a perfectly working
wikipedia endpoint, `get_content "jstor"` invokes only the jstor adapter and
returns `None` — science and wikipedia are never attempted, refuting the
jstor → science → wikipedia fallback order. -/
theorem c2_no_fallback_counterexample :
    (get_contentT wJstorDown r0 "jstor").2 = ["jstor"] ∧
    get_content wJstorDown r0 "jstor" = none ∧
    get_wikipedia wJstorDown r0 =
      { title := some "Evolução"
        link := some "https://pt.wikipedia.org/wiki/Evolução"
        content := none } :=
  ⟨rfl, rfl, rfl⟩

/-- C2 (amended): `get_content` performs no provider fallback — the only
adapter it ever invokes is the requested one (none at all when the
`get_<source>` lookup fails), so in particular when the primary returns a
valid record no fallback adapter is invoked. -/
theorem c2_only_primary_attempted (w : World) (r : Rand) (source : String) :
    (get_contentT w r source).2 = [] ∨
    (get_contentT w r source).2 = [source] := by
  unfold get_contentT
  cases ha : adapterCall w r source with
  | none => left; rfl
  | some res =>
    cases res with
    | error e => right; rfl
    | ok c =>
      right
      cases hcond : (pyFalsy c.link || pyFalsy c.title) with
      | true => simp [hcond]
      | false =>
        cases hd : get_daily_stoic w r with
        | error e => simp [hcond, hd]
        | ok ds => simp [hcond, hd]

end LDE
